import Mathlib

/-!
Shallow embedding of `src/arduino/cnc_controller/cnc_controller.ino`, the
safety-interlocked CNC router / laser-cutter controller.

Modelling conventions:
* The command buffer (`String cmd_buffer` on Arduino) is a `List Char`.
* All `int32_t` timestamp variables (`mode_set_time`, `laser_on_time`,
  `spindle_on_time`, `last_loop_time`) store their 32-bit two's-complement
  bit pattern as a `Nat < 2^32`; `LONG_MIN` is the pattern `2^31`.
  `millis()` is a per-tick input `now : Nat`, reduced mod `2^32`.
* `uint32_t` subtraction (`now - laser_on_time`) is `u32sub`; the signed
  `int32_t` subtraction (`last_loop_time - laser_on_time`) is `i32sub`,
  whose result is read back as a mathematical integer.
* `sscanf`'s `%d` conversion targets a 16-bit AVR `int`: `scanIntStep`
  performs the scanf scan (skip C whitespace, optional sign, digit run)
  and the stored value is wrapped to `int16` range by `wrap16`.
  Indeterminate values read from stack variables that `sscanf` failed to
  assign are modelled by the environment field `junk`.
* Digital pins are `Bool` (true = HIGH); `digitalRead` of an output pin
  returns the output latch, as on AVR.  The door / laser-head /
  vacuum-force inputs are active-low raw levels supplied per tick.
* The pump step timer (`ITimer1`) is `Option Int`: `none` = stopped,
  `some n` = armed with interval `n` (the interval is handed to the
  external scheduler as parsed).
* Serial replies are collected in an output list per processed command.
-/

namespace Cnc

/-- 2^32, the modulus of `uint32_t` arithmetic. -/
def U32 : Nat := 4294967296

/-- 2^31, also the bit pattern of the `LONG_MIN` timestamp sentinel. -/
def I32MIN_PAT : Nat := 2147483648

/-- `uint32_t` subtraction on bit patterns `a b < 2^32`. -/
def u32sub (a b : Nat) : Nat := (a % U32 + (U32 - b % U32)) % U32

/-- Read a 32-bit pattern back as a signed `int32_t` value. -/
def toI32 (x : Nat) : Int :=
  if x % U32 < I32MIN_PAT then ((x % U32 : Nat) : Int)
  else ((x % U32 : Nat) : Int) - (U32 : Int)

/-- `int32_t` subtraction of bit patterns, returning the signed value
(two's-complement wraparound, as on the AVR target). -/
def i32sub (a b : Nat) : Int := toI32 (u32sub a b)

/-- Wrap a mathematical integer to the 16-bit AVR `int` range, as the
`%d` conversion of `sscanf` stores into an `int`. -/
def wrap16 (v : Int) : Int := (v + 32768) % 65536 - 32768

/-- `MachineMode` enum of the source (values 0..3). -/
inductive MachineMode where
  | MODE_IDLE
  | MODE_ROUTER
  | MODE_LASER
  | MODE_MANUAL
deriving DecidableEq, Repr

/-- Integer value of a `MachineMode`, as the C enum. -/
def MachineMode.toInt : MachineMode → Int
  | .MODE_IDLE => 0
  | .MODE_ROUTER => 1
  | .MODE_LASER => 2
  | .MODE_MANUAL => 3

/-- The C cast `(MachineMode)n`, applied only after the dispatcher has
checked `n` against the four enum values. -/
def modeOfInt (n : Int) : MachineMode :=
  if n = 1 then .MODE_ROUTER
  else if n = 2 then .MODE_LASER
  else if n = 3 then .MODE_MANUAL
  else .MODE_IDLE

/-- One RGB triple of the WS2812B strip; channels are 8-bit. -/
structure CRGB where
  r : Nat
  g : Nat
  b : Nat
deriving DecidableEq, Repr

/-- The controller state: command buffer, pump interval, mode, the four
`int32_t` timestamps (bit patterns), the LED strip, the output pins and
the step timer. -/
structure Controller where
  cmd_buffer : List Char
  pump_interval_ms : Int
  mode : MachineMode
  mode_set_time : Nat
  laser_on_time : Nat
  spindle_on_time : Nat
  last_loop_time : Nat
  led0 : CRGB
  led1 : CRGB
  led2 : CRGB
  spindle : Bool
  laser : Bool
  air : Bool
  vacuum : Bool
  hood : Bool
  pump_ena : Bool
  timer : Option Int
  debug : String
deriving DecidableEq, Repr

/-- Per-tick inputs from the environment: at most one serial byte, the
raw (active-low) switch levels, the analog samples, `millis()`, and the
indeterminate value of stack variables `sscanf` failed to assign. -/
structure Env where
  serial : Option Char
  doorRaw : Bool
  laserHeadRaw : Bool
  vacForceRaw : Bool
  pressure : Nat
  pwm : Nat
  now : Nat
  junk : Int
deriving DecidableEq, Repr

/-- The snapshot printed by the `status` command, field for field. -/
structure StatusRep where
  mode : Int
  door : Bool
  laser_head : Bool
  force_vacuum : Bool
  vacuum : Bool
  hood : Bool
  pressure : Nat
  pwm : Nat
  spindle : Bool
  laser : Bool
  air : Bool
  pump_interval_ms : Int
  led0 : CRGB
  led1 : CRGB
  led2 : CRGB
  debug : String
deriving DecidableEq, Repr

/-- One serial reply line. -/
inductive Reply where
  | done
  | argsError
  | unknown
  | status (r : StatusRep)
deriving DecidableEq, Repr

/-- Arduino `String.startsWith`: does `s` begin with `p`? -/
def startsWith : List Char → List Char → Bool
  | [], _ => true
  | _ :: _, [] => false
  | p :: ps, c :: cs => if p = c then startsWith ps cs else false

/-- C-locale `isspace`, skipped by the `%d` conversion. -/
def isSpaceC (c : Char) : Bool :=
  c = ' ' || c = '\t' || c = '\n' || c = '\x0b' || c = '\x0c' || c = '\r'

/-- Longest digit run at the head of the input, and the rest. -/
def takeDigits : List Char → List Char × List Char
  | [] => ([], [])
  | c :: cs =>
    if c.isDigit then
      let p := takeDigits cs
      (c :: p.1, p.2)
    else ([], c :: cs)

/-- Value of a digit run. -/
def digitsToNat (ds : List Char) : Nat :=
  ds.foldl (fun a c => a * 10 + (c.toNat - 48)) 0

/-- One `%d` conversion of `sscanf`: skip C whitespace, optional sign,
then at least one digit; returns the (unwrapped) value and the rest of
the input, or `none` on a matching failure. -/
def scanIntStep (cs : List Char) : Option (Int × List Char) :=
  match cs.dropWhile isSpaceC with
  | '-' :: rest =>
    let p := takeDigits rest
    if p.1.isEmpty then none else some (-(digitsToNat p.1 : Int), p.2)
  | '+' :: rest =>
    let p := takeDigits rest
    if p.1.isEmpty then none else some ((digitsToNat p.1 : Int), p.2)
  | other =>
    let p := takeDigits other
    if p.1.isEmpty then none else some ((digitsToNat p.1 : Int), p.2)

/-- The value a single `sscanf("...%d")` stores into its 16-bit `int`
target, or `none` when the conversion fails (target left unassigned). -/
def scanInt (cs : List Char) : Option Int :=
  (scanIntStep cs).map (fun p => wrap16 p.1)

/-- The three values `sscanf("...%d,%d,%d")` leaves in `r,g,b`:
assignments are made as each conversion completes, and variables of a
failed conversion keep their indeterminate stack value `junk`. -/
def scanTriple (junk : Int) (cs : List Char) : Int × Int × Int :=
  match scanIntStep cs with
  | none => (junk, junk, junk)
  | some (r, rest) =>
    match rest with
    | ',' :: rest2 =>
      match scanIntStep rest2 with
      | none => (wrap16 r, junk, junk)
      | some (g, rest3) =>
        match rest3 with
        | ',' :: rest4 =>
          match scanIntStep rest4 with
          | none => (wrap16 r, wrap16 g, junk)
          | some (b, _) => (wrap16 r, wrap16 g, wrap16 b)
        | _ => (wrap16 r, wrap16 g, junk)
    | _ => (wrap16 r, junk, junk)

/-- The C++ `CRGB(int, int, int)` constructor: each channel is converted
to `uint8_t`. -/
def mkCRGB (r g b : Int) : CRGB :=
  ⟨(r % 256).toNat, (g % 256).toNat, (b % 256).toNat⟩

def statusLit : List Char := ['s', 't', 'a', 't', 'u', 's']
def modeLit : List Char := ['m', 'o', 'd', 'e', '=']
def led0Lit : List Char := ['l', 'e', 'd', '0', '=']
def led1Lit : List Char := ['l', 'e', 'd', '1', '=']
def led2Lit : List Char := ['l', 'e', 'd', '2', '=']
def spindleLit : List Char := ['s', 'p', 'i', 'n', 'd', 'l', 'e', '=']
def laserLit : List Char := ['l', 'a', 's', 'e', 'r', '=']
def airLit : List Char := ['a', 'i', 'r', '=']
def vacuumLit : List Char := ['v', 'a', 'c', 'u', 'u', 'm', '=']
def hoodLit : List Char := ['h', 'o', 'o', 'd', '=']
def pumpLit : List Char :=
  ['p', 'u', 'm', 'p', '_', 'i', 'n', 't', 'e', 'r', 'v', 'a', 'l', '_',
   'm', 's', '=']

/-- The delays of the source, in ms. -/
def LASER_OFF_TO_AIR_OFF_MS : Nat := 5000
def LASER_OFF_TO_HOOD_OFF_MS : Nat := 240000
def SPINDLE_OFF_TO_VACUUM_OFF_MS : Nat := 10000
def SPINDLE_OFF_TO_MIST_OFF_MS : Nat := 3000

def CMD_BUFFER_MAX_SIZE : Nat := 64

/-- The `status` snapshot: sensor levels are inverted (active-low),
output pins and the stored interval are reported as-is. -/
def mkStatus (e : Env) (s : Controller) : StatusRep :=
  { mode := s.mode.toInt
    door := !e.doorRaw
    laser_head := !e.laserHeadRaw
    force_vacuum := !e.vacForceRaw
    vacuum := s.vacuum
    hood := s.hood
    pressure := e.pressure
    pwm := e.pwm
    spindle := s.spindle
    laser := s.laser
    air := s.air
    pump_interval_ms := s.pump_interval_ms
    led0 := s.led0
    led1 := s.led1
    led2 := s.led2
    debug := s.debug }

/-- `processCmd()`: dispatch the command in `cmd_buffer`, following the
source's prefix tests in order.  Returns the new state and the list of
reply lines printed, in print order. -/
def processCmd (e : Env) (s : Controller) : Controller × List Reply :=
  if startsWith statusLit s.cmd_buffer then
    (s, [Reply.status (mkStatus e s)])
  else if startsWith modeLit s.cmd_buffer then
    let new_mode := (scanInt (s.cmd_buffer.drop 5)).getD e.junk
    if new_mode = 0 ∨ new_mode = 2 ∨ new_mode = 1 ∨ new_mode = 3 then
      ({ s with mode := modeOfInt new_mode, mode_set_time := e.now % U32 },
       [Reply.done])
    else
      (s, [Reply.argsError])
  else if s.mode = MachineMode.MODE_IDLE then
    (s, [Reply.unknown])
  else if startsWith led0Lit s.cmd_buffer then
    let t := scanTriple e.junk (s.cmd_buffer.drop 5)
    ({ s with led0 := mkCRGB t.1 t.2.1 t.2.2 }, [Reply.done])
  else if startsWith led1Lit s.cmd_buffer then
    let t := scanTriple e.junk (s.cmd_buffer.drop 5)
    ({ s with led1 := mkCRGB t.1 t.2.1 t.2.2 }, [Reply.done])
  else if startsWith led2Lit s.cmd_buffer then
    let t := scanTriple e.junk (s.cmd_buffer.drop 5)
    ({ s with led2 := mkCRGB t.1 t.2.1 t.2.2 }, [Reply.done])
  else if startsWith spindleLit s.cmd_buffer then
    let st := (scanInt (s.cmd_buffer.drop 8)).getD e.junk
    ({ s with spindle := st ≠ 0 }, [Reply.done])
  else if startsWith laserLit s.cmd_buffer then
    let st := (scanInt (s.cmd_buffer.drop 6)).getD e.junk
    ({ s with laser := st ≠ 0 }, [Reply.done])
  else if startsWith airLit s.cmd_buffer then
    let st := (scanInt (s.cmd_buffer.drop 4)).getD e.junk
    ({ s with air := st ≠ 0 }, [Reply.done])
  else if startsWith vacuumLit s.cmd_buffer then
    let st := (scanInt (s.cmd_buffer.drop 7)).getD e.junk
    ({ s with vacuum := st ≠ 0 }, [Reply.done])
  else if startsWith hoodLit s.cmd_buffer then
    let st := (scanInt (s.cmd_buffer.drop 5)).getD e.junk
    ({ s with hood := st ≠ 0 }, [Reply.done])
  else if startsWith pumpLit s.cmd_buffer then
    let s := { s with
      pump_interval_ms :=
        (scanInt (s.cmd_buffer.drop 17)).getD s.pump_interval_ms }
    if s.pump_interval_ms = 0 then
      ({ s with pump_ena := true, timer := none }, [Reply.done])
    else if s.pump_interval_ms < 0 ∨ 1000 < s.pump_interval_ms then
      let s := { s with pump_ena := true }
      let s := { s with pump_ena := false, timer := some s.pump_interval_ms }
      (s, [Reply.argsError, Reply.done])
    else
      ({ s with pump_ena := false, timer := some s.pump_interval_ms },
       [Reply.done])
  else
    (s, [Reply.unknown])

/-- The serial-drain phase of `loop()`: consume at most one byte; on a
newline run `processCmd` and clear the buffer; otherwise append while
below `CMD_BUFFER_MAX_SIZE`, else reset the buffer (silent overflow). -/
def serialPhase (e : Env) (s : Controller) : Controller × List Reply :=
  match e.serial with
  | none => (s, [])
  | some c =>
    if c = '\n' then
      let p := processCmd e s
      ({ p.1 with cmd_buffer := [] }, p.2)
    else if s.cmd_buffer.length < CMD_BUFFER_MAX_SIZE then
      ({ s with cmd_buffer := s.cmd_buffer ++ [c] }, [])
    else
      ({ s with cmd_buffer := [] }, [])

/-- Lines 271-280 of `loop()`: record the last-on times when the laser
resp. spindle output is HIGH with a nonzero pwm sense. -/
def detectPhase (e : Env) (now : Nat) (s : Controller) : Controller :=
  let s := if s.laser && decide (e.pwm ≠ 0) then
      { s with laser_on_time := now } else s
  if s.spindle && decide (e.pwm ≠ 0) then
    { s with spindle_on_time := now } else s

/-- Line 284-286: if we are not in router mode, the spindle is off. -/
def forceSpindleOff (s : Controller) : Controller :=
  if s.mode ≠ MachineMode.MODE_ROUTER then { s with spindle := false } else s

/-- Line 288-290: if we are not in laser mode, the laser is off. -/
def forceLaserOff (s : Controller) : Controller :=
  if s.mode ≠ MachineMode.MODE_LASER then { s with laser := false } else s

/-- One edge-triggered delayed shutoff (lines 305-310): fires when the
elapsed time since `laser_on_time` reaches `thr` this tick but had not
reached it by the previous tick. -/
def delayedOff (thr : Nat) (now : Nat) (s : Controller) : Prop :=
  thr ≤ u32sub now s.laser_on_time ∧
  i32sub s.last_loop_time s.laser_on_time < (thr : Int)

instance (thr now : Nat) (s : Controller) : Decidable (delayedOff thr now s) :=
  instDecidableAnd

/-- Lines 294-298: in laser mode the laser output follows the door
sensor — HIGH when the raw level is LOW (closed), LOW when open. -/
def doorInterlock (e : Env) (s : Controller) : Controller :=
  if e.doorRaw then { s with laser := false } else { s with laser := true }

/-- Lines 300-303: air and hood are forced HIGH while the laser is on. -/
def airHoodOn (laser_is_on : Bool) (s : Controller) : Controller :=
  if laser_is_on then { s with air := true, hood := true } else s

/-- Lines 305-307: edge-triggered delayed air shutoff. -/
def airShutoff (now : Nat) (s : Controller) : Controller :=
  if delayedOff LASER_OFF_TO_AIR_OFF_MS now s then { s with air := false }
  else s

/-- Lines 308-310: edge-triggered delayed hood shutoff. -/
def hoodShutoff (now : Nat) (s : Controller) : Controller :=
  if delayedOff LASER_OFF_TO_HOOD_OFF_MS now s then { s with hood := false }
  else s

/-- Lines 292-311: the laser-mode block of the enforcement loop — door
interlock, air/hood forcing on laser activity, and the two delayed
shutoffs, in source order.  `laser_is_on` is the activity flag computed
at line 272. -/
def laserModeBlock (e : Env) (laser_is_on : Bool) (now : Nat)
    (s : Controller) : Controller :=
  if s.mode = MachineMode.MODE_LASER then
    hoodShutoff now (airShutoff now (airHoodOn laser_is_on (doorInterlock e s)))
  else s

/-- Lines 271-311 of `loop()`: laser / spindle activity detection and
the per-tick safety enforcement, in source order. -/
def enforceSafety (e : Env) (now : Nat) (s : Controller) : Controller :=
  let laser_is_on := s.laser && decide (e.pwm ≠ 0)
  laserModeBlock e laser_is_on now
    (forceLaserOff (forceSpindleOff (detectPhase e now s)))

/-- One iteration of `loop()`. -/
def tick (e : Env) (s : Controller) : Controller × List Reply :=
  let now := e.now % U32
  let p := serialPhase e s
  let s := enforceSafety e now p.1
  ({ s with last_loop_time := now }, p.2)

/-- Iterate `tick` over a list of per-tick environments. -/
def runTicks (s : Controller) : List Env → Controller
  | [] => s
  | e :: es => runTicks (tick e s).1 es

/-- The state established by `setup()`. -/
def initState : Controller :=
  { cmd_buffer := []
    pump_interval_ms := 0
    mode := MachineMode.MODE_IDLE
    mode_set_time := I32MIN_PAT
    laser_on_time := I32MIN_PAT
    spindle_on_time := I32MIN_PAT
    last_loop_time := I32MIN_PAT
    led0 := ⟨255, 0, 0⟩
    led1 := ⟨0, 255, 0⟩
    led2 := ⟨0, 0, 255⟩
    spindle := false
    laser := false
    air := false
    vacuum := false
    hood := false
    pump_ena := true
    timer := none
    debug := "" }

/-- The quiescent laser-mode environment of the delayed-shutoff scenario:
no serial byte, door closed (raw LOW), pwm sense zero, time `t`. -/
def laserIdleEnv (t : Nat) : Env :=
  { serial := none
    doorRaw := false
    laserHeadRaw := true
    vacForceRaw := true
    pressure := 0
    pwm := 0
    now := t
    junk := 0 }

/-- The guard of an edge-triggered delayed shutoff with threshold `thr`,
as evaluated by the enforcement loop against the pre-tick timestamps
(valid when no activity updates `laser_on_time` this tick). -/
def delayFire (thr : Nat) (now : Nat) (s : Controller) : Bool :=
  decide (thr ≤ u32sub now s.laser_on_time) &&
  decide (i32sub s.last_loop_time s.laser_on_time < (thr : Int))

/-- Trace of the shutoff guard with threshold `thr` along a run of
quiescent laser-mode ticks at the given times. -/
def fireTrace (thr : Nat) (s : Controller) : List Nat → List Bool
  | [] => []
  | t :: ts =>
    delayFire thr (t % U32) s :: fireTrace thr (tick (laserIdleEnv t) s).1 ts

/-- The indicator of the first list entry reaching `c`: `true` exactly
at the first time `≥ c`, `false` before it and ever after. -/
def firstCross (c : Nat) : List Nat → List Bool
  | [] => []
  | t :: ts =>
    if c ≤ t then true :: ts.map (fun _ => false)
    else false :: firstCross c ts

/-- Strictly increasing chain of tick times starting after `p`. -/
def chainInc (p : Nat) : List Nat → Prop
  | [] => True
  | t :: ts => p < t ∧ chainInc t ts

/-- Holds of a command line on which `processCmd` reaches the
out-of-range arm of the `pump_interval_ms=` handler: the prior prefix
tests all fail, the mode gate passes, the pump prefix matches, and the
value the buffer leaves in `pump_interval_ms` is nonzero and outside
`[0, 1000]`. -/
def pumpDouble (s : Controller) : Prop :=
  startsWith statusLit s.cmd_buffer = false ∧
  startsWith modeLit s.cmd_buffer = false ∧
  s.mode ≠ MachineMode.MODE_IDLE ∧
  startsWith led0Lit s.cmd_buffer = false ∧
  startsWith led1Lit s.cmd_buffer = false ∧
  startsWith led2Lit s.cmd_buffer = false ∧
  startsWith spindleLit s.cmd_buffer = false ∧
  startsWith laserLit s.cmd_buffer = false ∧
  startsWith airLit s.cmd_buffer = false ∧
  startsWith vacuumLit s.cmd_buffer = false ∧
  startsWith hoodLit s.cmd_buffer = false ∧
  startsWith pumpLit s.cmd_buffer = true ∧
  (scanInt (s.cmd_buffer.drop 17)).getD s.pump_interval_ms ≠ 0 ∧
  ((scanInt (s.cmd_buffer.drop 17)).getD s.pump_interval_ms < 0 ∨
   1000 < (scanInt (s.cmd_buffer.drop 17)).getD s.pump_interval_ms)

instance (s : Controller) : Decidable (pumpDouble s) := by
  unfold pumpDouble; infer_instance

/-- Environment with no serial byte, used by concrete witnesses. -/
def quietEnv : Env :=
  { serial := none
    doorRaw := true
    laserHeadRaw := true
    vacForceRaw := true
    pressure := 0
    pwm := 0
    now := 100
    junk := 0 }

/-- Environment delivering a newline, used by concrete witnesses. -/
def nlEnv : Env := { quietEnv with serial := some '\n' }

/-- Router-mode state holding a `pump_interval_ms=2000` line. -/
def pumpCEx : Controller :=
  { initState with
    mode := MachineMode.MODE_ROUTER
    cmd_buffer := pumpLit ++ ['2', '0', '0', '0'] }

/-- Boot state holding a `status` line. -/
def statusState : Controller :=
  { initState with cmd_buffer := statusLit }

/-- Boot state holding a `mode=2` line. -/
def modeSetState : Controller :=
  { initState with cmd_buffer := modeLit ++ ['2'] }

/-- Boot state holding an unrecognized `foo` line. -/
def fooState : Controller :=
  { initState with cmd_buffer := ['f', 'o', 'o'] }

/-- Laser-mode state with the laser output latched HIGH, used by the
delayed-shutoff witness. -/
def laserWitState : Controller :=
  { initState with
    mode := MachineMode.MODE_LASER
    laser := true }

/-- Decision procedure for `chainInc`. -/
def chainIncDec : (p : Nat) → (ts : List Nat) → Decidable (chainInc p ts)
  | _, [] => .isTrue trivial
  | p, t :: ts =>
    match chainIncDec t ts with
    | .isTrue h =>
      if hpt : p < t then .isTrue ⟨hpt, h⟩
      else .isFalse (fun hx => hpt hx.1)
    | .isFalse h => .isFalse (fun hx => h hx.2)

instance (p : Nat) (ts : List Nat) : Decidable (chainInc p ts) :=
  chainIncDec p ts

/-! ### Frame and characterization lemmas for the enforcement phases -/

theorem detect_pwm0 (e : Env) (now : Nat) (s : Controller)
    (h : e.pwm = 0) : detectPhase e now s = s := by
  simp [detectPhase, h]

theorem detect_mode (e : Env) (now : Nat) (s : Controller) :
    (detectPhase e now s).mode = s.mode := by
  simp only [detectPhase]; split <;> split <;> rfl

theorem detect_outputs (e : Env) (now : Nat) (s : Controller) :
    (detectPhase e now s).laser = s.laser ∧
    (detectPhase e now s).spindle = s.spindle ∧
    (detectPhase e now s).air = s.air ∧
    (detectPhase e now s).hood = s.hood := by
  simp only [detectPhase]; split <;> split <;> exact ⟨rfl, rfl, rfl, rfl⟩

theorem fso_frame (s : Controller) :
    (forceSpindleOff s).mode = s.mode ∧
    (forceSpindleOff s).laser = s.laser ∧
    (forceSpindleOff s).air = s.air ∧
    (forceSpindleOff s).hood = s.hood ∧
    (forceSpindleOff s).laser_on_time = s.laser_on_time ∧
    (forceSpindleOff s).last_loop_time = s.last_loop_time := by
  simp only [forceSpindleOff]; split <;> exact ⟨rfl, rfl, rfl, rfl, rfl, rfl⟩

theorem fso_spindle (s : Controller) (h : s.mode ≠ MachineMode.MODE_ROUTER) :
    (forceSpindleOff s).spindle = false := by
  simp [forceSpindleOff, h]

theorem flo_frame (s : Controller) :
    (forceLaserOff s).mode = s.mode ∧
    (forceLaserOff s).spindle = s.spindle ∧
    (forceLaserOff s).air = s.air ∧
    (forceLaserOff s).hood = s.hood ∧
    (forceLaserOff s).laser_on_time = s.laser_on_time ∧
    (forceLaserOff s).last_loop_time = s.last_loop_time := by
  simp only [forceLaserOff]; split <;> exact ⟨rfl, rfl, rfl, rfl, rfl, rfl⟩

theorem flo_laser (s : Controller) :
    (forceLaserOff s).laser =
      if s.mode = MachineMode.MODE_LASER then s.laser else false := by
  simp only [forceLaserOff]
  split <;> rename_i h
  · simp only [ne_eq] at h
    simp [h]
  · simp only [ne_eq, not_not] at h
    simp [h]

theorem door_frame (e : Env) (s : Controller) :
    (doorInterlock e s).mode = s.mode ∧
    (doorInterlock e s).spindle = s.spindle ∧
    (doorInterlock e s).air = s.air ∧
    (doorInterlock e s).hood = s.hood ∧
    (doorInterlock e s).laser_on_time = s.laser_on_time ∧
    (doorInterlock e s).last_loop_time = s.last_loop_time := by
  simp only [doorInterlock]; split <;> exact ⟨rfl, rfl, rfl, rfl, rfl, rfl⟩

theorem door_laser (e : Env) (s : Controller) :
    (doorInterlock e s).laser = !e.doorRaw := by
  simp only [doorInterlock]
  split <;> rename_i h
  · rw [h]; rfl
  · rw [Bool.not_eq_true] at h; rw [h]; rfl

theorem airHoodOn_frame (li : Bool) (s : Controller) :
    (airHoodOn li s).mode = s.mode ∧
    (airHoodOn li s).spindle = s.spindle ∧
    (airHoodOn li s).laser = s.laser ∧
    (airHoodOn li s).laser_on_time = s.laser_on_time ∧
    (airHoodOn li s).last_loop_time = s.last_loop_time := by
  simp only [airHoodOn]; split <;> exact ⟨rfl, rfl, rfl, rfl, rfl⟩

theorem airHoodOn_true (s : Controller) :
    (airHoodOn true s).air = true ∧ (airHoodOn true s).hood = true :=
  ⟨rfl, rfl⟩

theorem airShutoff_frame (now : Nat) (s : Controller) :
    (airShutoff now s).mode = s.mode ∧
    (airShutoff now s).spindle = s.spindle ∧
    (airShutoff now s).laser = s.laser ∧
    (airShutoff now s).hood = s.hood ∧
    (airShutoff now s).laser_on_time = s.laser_on_time ∧
    (airShutoff now s).last_loop_time = s.last_loop_time := by
  simp only [airShutoff]; split <;> exact ⟨rfl, rfl, rfl, rfl, rfl, rfl⟩

theorem airShutoff_no_fire (now : Nat) (s : Controller)
    (h : ¬ delayedOff LASER_OFF_TO_AIR_OFF_MS now s) :
    airShutoff now s = s := by
  simp only [airShutoff]; rw [if_neg h]

theorem hoodShutoff_frame (now : Nat) (s : Controller) :
    (hoodShutoff now s).mode = s.mode ∧
    (hoodShutoff now s).spindle = s.spindle ∧
    (hoodShutoff now s).laser = s.laser ∧
    (hoodShutoff now s).air = s.air ∧
    (hoodShutoff now s).laser_on_time = s.laser_on_time ∧
    (hoodShutoff now s).last_loop_time = s.last_loop_time := by
  simp only [hoodShutoff]; split <;> exact ⟨rfl, rfl, rfl, rfl, rfl, rfl⟩

theorem hoodShutoff_no_fire (now : Nat) (s : Controller)
    (h : ¬ delayedOff LASER_OFF_TO_HOOD_OFF_MS now s) :
    hoodShutoff now s = s := by
  simp only [hoodShutoff]; rw [if_neg h]

theorem lmb_mode (e : Env) (li : Bool) (now : Nat) (s : Controller) :
    (laserModeBlock e li now s).mode = s.mode := by
  simp only [laserModeBlock]
  split
  · rw [(hoodShutoff_frame _ _).1, (airShutoff_frame _ _).1,
      (airHoodOn_frame _ _).1, (door_frame _ _).1]
  · rfl

theorem lmb_spindle (e : Env) (li : Bool) (now : Nat) (s : Controller) :
    (laserModeBlock e li now s).spindle = s.spindle := by
  simp only [laserModeBlock]
  split
  · rw [(hoodShutoff_frame _ _).2.1, (airShutoff_frame _ _).2.1,
      (airHoodOn_frame _ _).2.1, (door_frame _ _).2.1]
  · rfl

theorem lmb_times (e : Env) (li : Bool) (now : Nat) (s : Controller) :
    (laserModeBlock e li now s).laser_on_time = s.laser_on_time ∧
    (laserModeBlock e li now s).last_loop_time = s.last_loop_time := by
  simp only [laserModeBlock]
  split
  · constructor
    · rw [(hoodShutoff_frame _ _).2.2.2.2.1, (airShutoff_frame _ _).2.2.2.2.1,
        (airHoodOn_frame _ _).2.2.2.1, (door_frame _ _).2.2.2.2.1]
    · rw [(hoodShutoff_frame _ _).2.2.2.2.2, (airShutoff_frame _ _).2.2.2.2.2,
        (airHoodOn_frame _ _).2.2.2.2, (door_frame _ _).2.2.2.2.2]
  · exact ⟨rfl, rfl⟩

theorem lmb_laser (e : Env) (li : Bool) (now : Nat) (s : Controller)
    (h : s.mode = MachineMode.MODE_LASER) :
    (laserModeBlock e li now s).laser = !e.doorRaw := by
  simp only [laserModeBlock]
  rw [if_pos h, (hoodShutoff_frame _ _).2.2.1, (airShutoff_frame _ _).2.2.1,
    (airHoodOn_frame _ _).2.2.1, door_laser]

theorem lmb_frame (e : Env) (li : Bool) (now : Nat) (s : Controller)
    (h : s.mode ≠ MachineMode.MODE_LASER) :
    laserModeBlock e li now s = s := by
  simp only [laserModeBlock]; split
  · exact absurd (by assumption) h
  · rfl

theorem enforce_mode (e : Env) (now : Nat) (s : Controller) :
    (enforceSafety e now s).mode = s.mode := by
  simp only [enforceSafety]
  rw [lmb_mode, (flo_frame _).1, (fso_frame _).1, detect_mode]

theorem enforce_laser (e : Env) (now : Nat) (s : Controller) :
    (enforceSafety e now s).laser =
      (decide (s.mode = MachineMode.MODE_LASER) && !e.doorRaw) := by
  simp only [enforceSafety]
  by_cases h : s.mode = MachineMode.MODE_LASER
  · have hm : (forceLaserOff (forceSpindleOff (detectPhase e now s))).mode =
        MachineMode.MODE_LASER := by
      rw [(flo_frame _).1, (fso_frame _).1, detect_mode, h]
    rw [lmb_laser _ _ _ _ hm, h]
    simp
  · have hm : (forceLaserOff (forceSpindleOff (detectPhase e now s))).mode ≠
        MachineMode.MODE_LASER := by
      rw [(flo_frame _).1, (fso_frame _).1, detect_mode]; exact h
    rw [lmb_frame _ _ _ _ hm, flo_laser]
    rw [(fso_frame _).1, detect_mode]
    simp [h]

theorem enforce_spindle (e : Env) (now : Nat) (s : Controller)
    (h : s.mode ≠ MachineMode.MODE_ROUTER) :
    (enforceSafety e now s).spindle = false := by
  simp only [enforceSafety]
  rw [lmb_spindle, (flo_frame _).2.1, fso_spindle]
  rw [detect_mode]; exact h

theorem enforce_air_hood_frame (e : Env) (now : Nat) (s : Controller)
    (h : s.mode ≠ MachineMode.MODE_LASER) :
    (enforceSafety e now s).air = s.air ∧
    (enforceSafety e now s).hood = s.hood := by
  simp only [enforceSafety]
  have hm : (forceLaserOff (forceSpindleOff (detectPhase e now s))).mode ≠
      MachineMode.MODE_LASER := by
    rw [(flo_frame _).1, (fso_frame _).1, detect_mode]; exact h
  rw [lmb_frame _ _ _ _ hm]
  rw [(flo_frame _).2.2.1, (fso_frame _).2.2.1, (detect_outputs _ _ _).2.2.1,
    (flo_frame _).2.2.2.1, (fso_frame _).2.2.2.1,
    (detect_outputs _ _ _).2.2.2]
  exact ⟨rfl, rfl⟩

theorem tick_laser (e : Env) (s : Controller) :
    (tick e s).1.laser =
      (enforceSafety e (e.now % U32) (serialPhase e s).1).laser := rfl

theorem tick_mode (e : Env) (s : Controller) :
    (tick e s).1.mode =
      (enforceSafety e (e.now % U32) (serialPhase e s).1).mode := rfl

theorem tick_spindle (e : Env) (s : Controller) :
    (tick e s).1.spindle =
      (enforceSafety e (e.now % U32) (serialPhase e s).1).spindle := rfl

theorem tick_air (e : Env) (s : Controller) :
    (tick e s).1.air =
      (enforceSafety e (e.now % U32) (serialPhase e s).1).air := rfl

theorem tick_hood (e : Env) (s : Controller) :
    (tick e s).1.hood =
      (enforceSafety e (e.now % U32) (serialPhase e s).1).hood := rfl

theorem serialPhase_none (e : Env) (s : Controller) (h : e.serial = none) :
    serialPhase e s = (s, []) := by
  simp [serialPhase, h]

/-! ### Claim theorems -/

/-- C1: at the end of every tick, the laser output is HIGH exactly when
the mode at end of tick is Laser and the door sensor reads closed (raw
LOW); this holds for every state and every per-tick input, so no
command sequence can violate it. -/
theorem laser_interlock_end_of_tick (e : Env) (s : Controller) :
    ((tick e s).1.laser = true) ↔
      ((tick e s).1.mode = MachineMode.MODE_LASER ∧ e.doorRaw = false) := by
  rw [tick_laser, tick_mode, enforce_laser, enforce_mode]
  cases h : e.doorRaw <;>
    by_cases hm : (serialPhase e s).1.mode = MachineMode.MODE_LASER <;>
    simp [hm]

/-- C2: at the end of every tick whose final mode is not Router, the
spindle output is LOW, whatever was commanded earlier in the tick. -/
theorem spindle_low_outside_router (e : Env) (s : Controller)
    (h : (tick e s).1.mode ≠ MachineMode.MODE_ROUTER) :
    (tick e s).1.spindle = false := by
  rw [tick_spindle]
  rw [tick_mode, enforce_mode] at h
  exact enforce_spindle _ _ _ h

/-- Witness for C2 at a concrete input: a tick from the boot state (mode
Idle) ends with the spindle LOW. -/
theorem spindle_low_outside_router_witness :
    (tick quietEnv initState).1.mode ≠ MachineMode.MODE_ROUTER ∧
    (tick quietEnv initState).1.spindle = false :=
  ⟨by decide, spindle_low_outside_router quietEnv initState (by decide)⟩

/-- C9: the Safety Enforcement Loop never writes the air or hood outputs
in a tick whose mode is not Laser — and hence over any run of ticks that
deliver no serial byte (so no command) while the mode is not Laser, the
air and hood outputs keep their values indefinitely. -/
theorem air_hood_frame_outside_laser :
    (∀ e now s, s.mode ≠ MachineMode.MODE_LASER →
      (enforceSafety e now s).air = s.air ∧
      (enforceSafety e now s).hood = s.hood) ∧
    (∀ envs s, s.mode ≠ MachineMode.MODE_LASER →
      (∀ ev ∈ envs, ev.serial = none) →
      (runTicks s envs).air = s.air ∧ (runTicks s envs).hood = s.hood) := by
  refine ⟨enforce_air_hood_frame, ?_⟩
  intro envs
  induction envs with
  | nil => intro s h _; exact ⟨rfl, rfl⟩
  | cons ev evs ih =>
    intro s h hser
    have hev : ev.serial = none := hser ev (List.mem_cons_self _ _)
    have hsp : (serialPhase ev s).1 = s := by rw [serialPhase_none ev s hev]
    have hmode : (tick ev s).1.mode = s.mode := by
      rw [tick_mode, enforce_mode, hsp]
    have hair : (tick ev s).1.air = s.air := by
      rw [tick_air, hsp]; exact (enforce_air_hood_frame ev _ s h).1
    have hhood : (tick ev s).1.hood = s.hood := by
      rw [tick_hood, hsp]; exact (enforce_air_hood_frame ev _ s h).2
    have hrest := ih (tick ev s).1 (by rw [hmode]; exact h)
      (fun x hx => hser x (List.mem_cons_of_mem _ hx))
    refine ⟨?_, ?_⟩
    · rw [runTicks, hrest.1, hair]
    · rw [runTicks, hrest.2, hhood]

/-- Witness for C9 at a concrete input: in Router mode with both outputs
HIGH, the enforcement pass and a two-tick quiet run leave air and hood
untouched. -/
theorem air_hood_frame_outside_laser_witness :
    ((enforceSafety quietEnv 100
        { initState with mode := MachineMode.MODE_ROUTER,
                         air := true, hood := true }).air = true ∧
      (enforceSafety quietEnv 100
        { initState with mode := MachineMode.MODE_ROUTER,
                         air := true, hood := true }).hood = true) ∧
    ((runTicks { initState with mode := MachineMode.MODE_ROUTER,
                                air := true, hood := true }
        [quietEnv, quietEnv]).air = true ∧
      (runTicks { initState with mode := MachineMode.MODE_ROUTER,
                                 air := true, hood := true }
        [quietEnv, quietEnv]).hood = true) :=
  ⟨air_hood_frame_outside_laser.1 quietEnv 100 _ (by decide),
   air_hood_frame_outside_laser.2 [quietEnv, quietEnv] _ (by decide)
     (by intro ev hev; fin_cases hev <;> rfl)⟩

/-! ### Prefix-test helpers -/

theorem startsWith_append (p rest : List Char) :
    startsWith p (p ++ rest) = true := by
  induction p with
  | nil => rfl
  | cons c cs ih => simp [startsWith, ih]

theorem startsWith_refl (p : List Char) : startsWith p p = true := by
  have h := startsWith_append p []
  rwa [List.append_nil] at h

theorem sw_head_ne (p c : Char) (ps cs : List Char) (h : ¬ p = c) :
    startsWith (p :: ps) (c :: cs) = false := by
  simp [startsWith, h]

theorem bool_clash {b : Bool} (h1 : b = true) (h2 : b = false) : False := by
  rw [h1] at h2; exact Bool.noConfusion h2

/-- All the prefix tests `processCmd` makes on a buffer that carries a
`pump_interval_ms=` line, plus the remainder after the literal match. -/
theorem pump_branch_facts (s : Controller) (rest : List Char)
    (hb : s.cmd_buffer = pumpLit ++ rest) :
    startsWith statusLit s.cmd_buffer = false ∧
    startsWith modeLit s.cmd_buffer = false ∧
    startsWith led0Lit s.cmd_buffer = false ∧
    startsWith led1Lit s.cmd_buffer = false ∧
    startsWith led2Lit s.cmd_buffer = false ∧
    startsWith spindleLit s.cmd_buffer = false ∧
    startsWith laserLit s.cmd_buffer = false ∧
    startsWith airLit s.cmd_buffer = false ∧
    startsWith vacuumLit s.cmd_buffer = false ∧
    startsWith hoodLit s.cmd_buffer = false ∧
    startsWith pumpLit s.cmd_buffer = true ∧
    s.cmd_buffer.drop 17 = rest := by
  rw [hb]
  exact ⟨sw_head_ne _ _ _ _ (by decide), sw_head_ne _ _ _ _ (by decide),
    sw_head_ne _ _ _ _ (by decide), sw_head_ne _ _ _ _ (by decide),
    sw_head_ne _ _ _ _ (by decide), sw_head_ne _ _ _ _ (by decide),
    sw_head_ne _ _ _ _ (by decide), sw_head_ne _ _ _ _ (by decide),
    sw_head_ne _ _ _ _ (by decide), sw_head_ne _ _ _ _ (by decide),
    startsWith_append _ _, rfl⟩

/-- On a buffer whose prefix is `status`, `processCmd` replies with one
snapshot and leaves the state unchanged. -/
theorem status_reply (e : Env) (s : Controller)
    (h : startsWith statusLit s.cmd_buffer = true) :
    processCmd e s = (s, [Reply.status (mkStatus e s)]) := by
  simp only [processCmd, h, if_true]

/-- C6: on a `mode=` line with a successfully parsed integer `n`, the
dispatcher sets the mode and `mode_set_time` and replies `done` when `n`
names one of the four `MachineMode` values, and replies `args_error`
leaving the state untouched otherwise — in every mode, including Idle. -/
theorem mode_cmd_spec (e : Env) (s : Controller) (rest : List Char) (n : Int)
    (hb : s.cmd_buffer = modeLit ++ rest)
    (hn : scanInt rest = some n) :
    ((n = 0 ∨ n = 1 ∨ n = 2 ∨ n = 3) →
      (processCmd e s).1.mode = modeOfInt n ∧
      (processCmd e s).1.mode.toInt = n ∧
      (processCmd e s).1.mode_set_time = e.now % U32 ∧
      (processCmd e s).2 = [Reply.done]) ∧
    (¬ (n = 0 ∨ n = 1 ∨ n = 2 ∨ n = 3) →
      (processCmd e s).1 = s ∧
      (processCmd e s).2 = [Reply.argsError]) := by
  have h1 : startsWith statusLit s.cmd_buffer = false := by
    rw [hb]; exact sw_head_ne _ _ _ _ (by decide)
  have h2 : startsWith modeLit s.cmd_buffer = true := by
    rw [hb]; exact startsWith_append _ _
  have hd : s.cmd_buffer.drop 5 = rest := by rw [hb]; rfl
  simp only [processCmd, h1, h2, Bool.false_eq_true, if_false, if_true, hd,
    hn, Option.getD]
  constructor
  · intro hv
    rw [if_pos (by tauto)]
    refine ⟨rfl, ?_, rfl, rfl⟩
    rcases hv with rfl | rfl | rfl | rfl <;> rfl
  · intro hv
    rw [if_neg (by tauto)]
    exact ⟨rfl, rfl⟩

/-- Witness for C6 at a concrete input: `mode=2` from the boot state
moves to Laser mode and replies `done`. -/
theorem mode_cmd_spec_witness :
    (processCmd quietEnv modeSetState).1.mode = MachineMode.MODE_LASER ∧
    (processCmd quietEnv modeSetState).2 = [Reply.done] := by
  have h := (mode_cmd_spec quietEnv modeSetState ['2'] 2 rfl
    (by decide)).1 (by tauto)
  exact ⟨h.1, h.2.2.2⟩

/-- C7: any line that is neither `status` nor `mode=`, dispatched while
the mode is Idle, replies `unknown` and changes nothing at all. -/
theorem idle_gate_unknown (e : Env) (s : Controller)
    (h1 : startsWith statusLit s.cmd_buffer = false)
    (h2 : startsWith modeLit s.cmd_buffer = false)
    (hm : s.mode = MachineMode.MODE_IDLE) :
    processCmd e s = (s, [Reply.unknown]) := by
  simp only [processCmd, h1, h2, Bool.false_eq_true, if_false, hm, if_true]

/-- Witness for C7 at a concrete input: `foo` in Idle replies `unknown`
and leaves the state unchanged. -/
theorem idle_gate_unknown_witness :
    processCmd quietEnv fooState = (fooState, [Reply.unknown]) :=
  idle_gate_unknown quietEnv fooState (by decide) (by decide) (by decide)

/-- C3: a `pump_interval_ms=n` line with parsed `n` nonzero and outside
`[0, 1000]`, dispatched outside Idle, takes the out-of-range arm and
still falls through: the host receives `args_error` followed by `done`,
the step timer is armed with the out-of-range interval, and the driver
enable pin ends LOW (enabled), reflecting the fall-through path. -/
theorem pump_out_of_range_fallthrough (e : Env) (s : Controller)
    (rest : List Char) (n : Int)
    (hb : s.cmd_buffer = pumpLit ++ rest)
    (hm : ¬ s.mode = MachineMode.MODE_IDLE)
    (hn : scanInt rest = some n)
    (h0 : ¬ n = 0)
    (hr : n < 0 ∨ 1000 < n) :
    (processCmd e s).2 = [Reply.argsError, Reply.done] ∧
    (processCmd e s).1.pump_interval_ms = n ∧
    (processCmd e s).1.timer = some n ∧
    (processCmd e s).1.pump_ena = false := by
  obtain ⟨f1, f2, f3, f4, f5, f6, f7, f8, f9, f10, f11, fd⟩ :=
    pump_branch_facts s rest hb
  simp only [processCmd, f1, f2, f3, f4, f5, f6, f7, f8, f9, f10, f11,
    Bool.false_eq_true, if_false, if_true, if_neg hm, fd, hn, Option.getD]
  rw [if_neg h0, if_pos hr]
  exact ⟨rfl, rfl, rfl, rfl⟩

/-- Witness for C3 at a concrete input: `pump_interval_ms=2000` in
Router mode double-replies and arms the timer at 2000. -/
theorem pump_out_of_range_fallthrough_witness :
    (processCmd quietEnv pumpCEx).2 = [Reply.argsError, Reply.done] ∧
    (processCmd quietEnv pumpCEx).1.pump_interval_ms = 2000 ∧
    (processCmd quietEnv pumpCEx).1.timer = some 2000 ∧
    (processCmd quietEnv pumpCEx).1.pump_ena = false :=
  pump_out_of_range_fallthrough quietEnv pumpCEx ['2', '0', '0', '0'] 2000
    rfl (by decide) (by decide) (by decide) (by decide)

/-- C10: on any `pump_interval_ms=n` line with parsed `n`, dispatched
outside Idle, the stored `pump_interval_ms` is overwritten with `n`
before any validation — even when `n` is out of range and `args_error`
is among the replies — and a subsequent `status` command reports
`pump_interval_ms = n`. -/
theorem pump_store_before_validation (e e2 : Env) (s : Controller)
    (rest : List Char) (n : Int)
    (hb : s.cmd_buffer = pumpLit ++ rest)
    (hm : ¬ s.mode = MachineMode.MODE_IDLE)
    (hn : scanInt rest = some n) :
    (processCmd e s).1.pump_interval_ms = n ∧
    ((n < 0 ∨ 1000 < n) → Reply.argsError ∈ (processCmd e s).2) ∧
    (processCmd e2 { (processCmd e s).1 with cmd_buffer := statusLit }).2 =
      [Reply.status
        (mkStatus e2 { (processCmd e s).1 with cmd_buffer := statusLit })] ∧
    (mkStatus e2
        { (processCmd e s).1 with cmd_buffer := statusLit }).pump_interval_ms
      = n := by
  obtain ⟨f1, f2, f3, f4, f5, f6, f7, f8, f9, f10, f11, fd⟩ :=
    pump_branch_facts s rest hb
  have hpump : (processCmd e s).1.pump_interval_ms = n ∧
      ((n < 0 ∨ 1000 < n) → Reply.argsError ∈ (processCmd e s).2) := by
    simp only [processCmd, f1, f2, f3, f4, f5, f6, f7, f8, f9, f10, f11,
      Bool.false_eq_true, if_false, if_true, if_neg hm, fd, hn, Option.getD]
    by_cases hz : n = 0
    · rw [if_pos hz]
      exact ⟨rfl, fun hr => by omega⟩
    · rw [if_neg hz]
      by_cases hr : n < 0 ∨ 1000 < n
      · rw [if_pos hr]
        exact ⟨rfl, fun _ => by simp⟩
      · rw [if_neg hr]
        exact ⟨rfl, fun hr2 => absurd hr2 hr⟩
  refine ⟨hpump.1, hpump.2, ?_, ?_⟩
  · rw [status_reply e2 _ (startsWith_refl statusLit)]
  · exact hpump.1

/-- Witness for C10 at a concrete input: after `pump_interval_ms=2000`
in Router mode, a `status` snapshot reports interval 2000. -/
theorem pump_store_before_validation_witness :
    (processCmd quietEnv pumpCEx).1.pump_interval_ms = 2000 ∧
    Reply.argsError ∈ (processCmd quietEnv pumpCEx).2 ∧
    (mkStatus quietEnv
        { (processCmd quietEnv pumpCEx).1 with
          cmd_buffer := statusLit }).pump_interval_ms = 2000 := by
  have h := pump_store_before_validation quietEnv quietEnv pumpCEx
    ['2', '0', '0', '0'] 2000 rfl (by decide) (by decide)
  exact ⟨h.1, h.2.1 (by decide), h.2.2.2⟩

/-- Every dispatched line yields exactly one reply, except on the
out-of-range `pump_interval_ms` fall-through, which yields two. -/
theorem reply_count_core (e : Env) (s : Controller) :
    (processCmd e s).2.length = if pumpDouble s then 2 else 1 := by
  simp only [processCmd]
  by_cases h1 : startsWith statusLit s.cmd_buffer = true
  · have hpd : ¬ pumpDouble s := fun hp => bool_clash h1 hp.1
    simp [if_pos h1, hpd]
  · rw [if_neg h1]
    by_cases h2 : startsWith modeLit s.cmd_buffer = true
    · have hpd : ¬ pumpDouble s := fun hp => bool_clash h2 hp.2.1
      rw [if_pos h2]
      split <;> simp [hpd]
    · rw [if_neg h2]
      by_cases h3 : s.mode = MachineMode.MODE_IDLE
      · have hpd : ¬ pumpDouble s := fun hp => hp.2.2.1 h3
        simp [if_pos h3, hpd]
      · rw [if_neg h3]
        by_cases h4 : startsWith led0Lit s.cmd_buffer = true
        · have hpd : ¬ pumpDouble s := fun hp => bool_clash h4 hp.2.2.2.1
          simp [if_pos h4, hpd]
        · rw [if_neg h4]
          by_cases h5 : startsWith led1Lit s.cmd_buffer = true
          · have hpd : ¬ pumpDouble s := fun hp => bool_clash h5 hp.2.2.2.2.1
            simp [if_pos h5, hpd]
          · rw [if_neg h5]
            by_cases h6 : startsWith led2Lit s.cmd_buffer = true
            · have hpd : ¬ pumpDouble s := fun hp =>
                bool_clash h6 hp.2.2.2.2.2.1
              simp [if_pos h6, hpd]
            · rw [if_neg h6]
              by_cases h7 : startsWith spindleLit s.cmd_buffer = true
              · have hpd : ¬ pumpDouble s := fun hp =>
                  bool_clash h7 hp.2.2.2.2.2.2.1
                simp [if_pos h7, hpd]
              · rw [if_neg h7]
                by_cases h8 : startsWith laserLit s.cmd_buffer = true
                · have hpd : ¬ pumpDouble s := fun hp =>
                    bool_clash h8 hp.2.2.2.2.2.2.2.1
                  simp [if_pos h8, hpd]
                · rw [if_neg h8]
                  by_cases h9 : startsWith airLit s.cmd_buffer = true
                  · have hpd : ¬ pumpDouble s := fun hp =>
                      bool_clash h9 hp.2.2.2.2.2.2.2.2.1
                    simp [if_pos h9, hpd]
                  · rw [if_neg h9]
                    by_cases h10 : startsWith vacuumLit s.cmd_buffer = true
                    · have hpd : ¬ pumpDouble s := fun hp =>
                        bool_clash h10 hp.2.2.2.2.2.2.2.2.2.1
                      simp [if_pos h10, hpd]
                    · rw [if_neg h10]
                      by_cases h11 : startsWith hoodLit s.cmd_buffer = true
                      · have hpd : ¬ pumpDouble s := fun hp =>
                          bool_clash h11 hp.2.2.2.2.2.2.2.2.2.2.1
                        simp [if_pos h11, hpd]
                      · rw [if_neg h11]
                        by_cases h12 : startsWith pumpLit s.cmd_buffer = true
                        · rw [if_pos h12]
                          by_cases hz :
                            (scanInt (s.cmd_buffer.drop 17)).getD
                              s.pump_interval_ms = 0
                          · have hpd : ¬ pumpDouble s := fun hp =>
                              hp.2.2.2.2.2.2.2.2.2.2.2.2.1 hz
                            simp [if_pos hz, hpd]
                          · rw [if_neg hz]
                            by_cases hr :
                              (scanInt (s.cmd_buffer.drop 17)).getD
                                s.pump_interval_ms < 0 ∨
                              1000 < (scanInt (s.cmd_buffer.drop 17)).getD
                                s.pump_interval_ms
                            · have hpd : pumpDouble s :=
                                ⟨Bool.eq_false_iff.mpr (fun hx => h1 hx),
                                 Bool.eq_false_iff.mpr (fun hx => h2 hx), h3,
                                 Bool.eq_false_iff.mpr (fun hx => h4 hx),
                                 Bool.eq_false_iff.mpr (fun hx => h5 hx),
                                 Bool.eq_false_iff.mpr (fun hx => h6 hx),
                                 Bool.eq_false_iff.mpr (fun hx => h7 hx),
                                 Bool.eq_false_iff.mpr (fun hx => h8 hx),
                                 Bool.eq_false_iff.mpr (fun hx => h9 hx),
                                 Bool.eq_false_iff.mpr (fun hx => h10 hx),
                                 Bool.eq_false_iff.mpr (fun hx => h11 hx),
                                 h12, hz, hr⟩
                              simp [if_pos hr, hpd]
                            · have hpd : ¬ pumpDouble s := fun hp =>
                                hr hp.2.2.2.2.2.2.2.2.2.2.2.2.2
                              simp [if_neg hr, hpd]
                        · have hpd : ¬ pumpDouble s := fun hp =>
                            bool_clash hp.2.2.2.2.2.2.2.2.2.2.2.1
                              (Bool.eq_false_iff.mpr (fun hx => h12 hx))
                          simp [if_neg h12, hpd]

/-- C4 counterexample: the `pump_interval_ms=2000` line in Router mode
is an accepted line whose processing emits two replies, not one. -/
theorem reply_count_counterexample :
    (tick nlEnv pumpCEx).2 = [Reply.argsError, Reply.done] ∧
    ¬ (tick nlEnv pumpCEx).2.length = 1 := by
  decide

/-- C4 (amended): every completed line accepted by the Line Assembler
emits exactly one reply, except a `pump_interval_ms=` line whose stored
interval ends up nonzero and outside `[0, 1000]`, which emits two
(`args_error` then `done`); a tick whose byte is not a newline — in
particular one discarded by buffer overflow — emits no reply at all. -/
theorem reply_count_amended (e : Env) (s : Controller) (c : Char) :
    (e.serial = some '\n' →
      (tick e s).2.length = if pumpDouble s then 2 else 1) ∧
    (e.serial = some c → ¬ c = '\n' → (tick e s).2 = []) ∧
    (e.serial = none → (tick e s).2 = []) := by
  have ht : (tick e s).2 = (serialPhase e s).2 := rfl
  refine ⟨?_, ?_, ?_⟩
  · intro h
    rw [ht]
    have hp : (serialPhase e s).2 = (processCmd e s).2 := by
      simp [serialPhase, h]
    rw [hp]
    exact reply_count_core e s
  · intro h hne
    rw [ht]
    simp only [serialPhase, h, if_neg hne]
    split <;> rfl
  · intro h
    rw [ht]
    simp [serialPhase, h]

/-- Witness for the amended C4 at concrete inputs: a `status` line
yields exactly one reply, and an overflow-discarded byte yields none. -/
theorem reply_count_amended_witness :
    (tick nlEnv statusState).2.length = 1 ∧
    (tick { nlEnv with serial := some 'x' }
      { statusState with cmd_buffer := List.replicate 64 'a' }).2 = [] := by
  constructor
  · have h := (reply_count_amended nlEnv statusState 'x').1 rfl
    rwa [if_neg (by decide)] at h
  · exact (reply_count_amended { nlEnv with serial := some 'x' }
      { statusState with cmd_buffer := List.replicate 64 'a' } 'x').2.1
      rfl (by decide)

/-! ### Command-buffer bound (Line Assembler) -/

theorem detect_buffer (e : Env) (now : Nat) (s : Controller) :
    (detectPhase e now s).cmd_buffer = s.cmd_buffer := by
  simp only [detectPhase]; split <;> split <;> rfl

theorem fso_buffer (s : Controller) :
    (forceSpindleOff s).cmd_buffer = s.cmd_buffer := by
  simp only [forceSpindleOff]; split <;> rfl

theorem flo_buffer (s : Controller) :
    (forceLaserOff s).cmd_buffer = s.cmd_buffer := by
  simp only [forceLaserOff]; split <;> rfl

theorem door_buffer (e : Env) (s : Controller) :
    (doorInterlock e s).cmd_buffer = s.cmd_buffer := by
  simp only [doorInterlock]; split <;> rfl

theorem airHoodOn_buffer (li : Bool) (s : Controller) :
    (airHoodOn li s).cmd_buffer = s.cmd_buffer := by
  simp only [airHoodOn]; split <;> rfl

theorem airShutoff_buffer (now : Nat) (s : Controller) :
    (airShutoff now s).cmd_buffer = s.cmd_buffer := by
  simp only [airShutoff]; split <;> rfl

theorem hoodShutoff_buffer (now : Nat) (s : Controller) :
    (hoodShutoff now s).cmd_buffer = s.cmd_buffer := by
  simp only [hoodShutoff]; split <;> rfl

theorem lmb_buffer (e : Env) (li : Bool) (now : Nat) (s : Controller) :
    (laserModeBlock e li now s).cmd_buffer = s.cmd_buffer := by
  simp only [laserModeBlock]
  split
  · rw [hoodShutoff_buffer, airShutoff_buffer, airHoodOn_buffer, door_buffer]
  · rfl

theorem enforce_buffer (e : Env) (now : Nat) (s : Controller) :
    (enforceSafety e now s).cmd_buffer = s.cmd_buffer := by
  simp only [enforceSafety]
  rw [lmb_buffer, flo_buffer, fso_buffer, detect_buffer]

theorem tick_buffer (e : Env) (s : Controller) :
    (tick e s).1.cmd_buffer = (serialPhase e s).1.cmd_buffer := by
  have h : (tick e s).1.cmd_buffer =
      (enforceSafety e (e.now % U32) (serialPhase e s).1).cmd_buffer := rfl
  rw [h, enforce_buffer]

theorem serial_buffer_le (e : Env) (s : Controller)
    (h : s.cmd_buffer.length ≤ CMD_BUFFER_MAX_SIZE) :
    (serialPhase e s).1.cmd_buffer.length ≤ CMD_BUFFER_MAX_SIZE := by
  simp only [serialPhase]
  split
  · exact h
  · split
    · simp
    · split
      · rename_i hlt
        simp only [List.length_append, List.length_cons, List.length_nil]
        omega
      · simp

theorem run_buffer_le (envs : List Env) :
    ∀ s : Controller, s.cmd_buffer.length ≤ CMD_BUFFER_MAX_SIZE →
      (runTicks s envs).cmd_buffer.length ≤ CMD_BUFFER_MAX_SIZE := by
  induction envs with
  | nil => intro s h; exact h
  | cons e es ih =>
    intro s h
    have hstep : (tick e s).1.cmd_buffer.length ≤ CMD_BUFFER_MAX_SIZE := by
      rw [tick_buffer]; exact serial_buffer_le e s h
    exact ih (tick e s).1 hstep

/-- C8: from the boot state, the command buffer's length never exceeds
`CMD_BUFFER_MAX_SIZE` (64) after any sequence of ticks; and a tick whose
non-newline byte arrives with the buffer full resets the buffer to
empty, discarding the partial line, producing no line and no reply. -/
theorem buffer_bound_and_overflow :
    (∀ envs, (runTicks initState envs).cmd_buffer.length ≤
      CMD_BUFFER_MAX_SIZE) ∧
    (∀ (e : Env) (s : Controller) (c : Char), e.serial = some c →
      ¬ c = '\n' → ¬ s.cmd_buffer.length < CMD_BUFFER_MAX_SIZE →
      (tick e s).1.cmd_buffer = [] ∧ (tick e s).2 = []) := by
  constructor
  · intro envs
    exact run_buffer_le envs initState (by simp [initState])
  · intro e s c hc hne hfull
    constructor
    · rw [tick_buffer]
      simp only [serialPhase, hc, if_neg hne, if_neg hfull]
    · have ht : (tick e s).2 = (serialPhase e s).2 := rfl
      rw [ht]
      simp only [serialPhase, hc, if_neg hne, if_neg hfull]

/-- Witness for C8 at a concrete input: a full 64-byte buffer hit by a
non-newline byte resets to empty with no reply, and a 70-byte stream
leaves the boot buffer within bounds. -/
theorem buffer_bound_and_overflow_witness :
    ((runTicks initState
        (List.replicate 70 { quietEnv with serial := some 'a' })).cmd_buffer.length
      ≤ CMD_BUFFER_MAX_SIZE) ∧
    ((tick { quietEnv with serial := some 'x' }
        { initState with cmd_buffer := List.replicate 64 'a' }).1.cmd_buffer
        = [] ∧
      (tick { quietEnv with serial := some 'x' }
        { initState with cmd_buffer := List.replicate 64 'a' }).2 = []) :=
  ⟨buffer_bound_and_overflow.1 _,
   buffer_bound_and_overflow.2 { quietEnv with serial := some 'x' }
     { initState with cmd_buffer := List.replicate 64 'a' } 'x' rfl
     (by decide) (by decide)⟩

/-! ### Delayed-shutoff timing (C5) -/

theorem u32sub_of_le {a b : Nat} (hb : b ≤ a) (ha : a < U32) :
    u32sub a b = a - b := by
  unfold u32sub
  rw [Nat.mod_eq_of_lt ha, Nat.mod_eq_of_lt (lt_of_le_of_lt hb ha)]
  have h1 : a + (U32 - b) = U32 + (a - b) := by omega
  rw [h1, Nat.add_mod_left, Nat.mod_eq_of_lt (by omega)]

theorem u32sub_self (a : Nat) : u32sub a a = 0 := by
  unfold u32sub
  have h2 : a % U32 < U32 := Nat.mod_lt a (show U32 > 0 by decide)
  have h1 : a % U32 + (U32 - a % U32) = U32 := by omega
  rw [h1, Nat.mod_self]

theorem toI32_of_lt {x : Nat} (h : x < I32MIN_PAT) : toI32 x = (x : Int) := by
  unfold toI32
  have hx : x % U32 = x :=
    Nat.mod_eq_of_lt (by unfold U32 I32MIN_PAT at *; omega)
  rw [hx, if_pos h]

/-- With all quantities below `2^31` the shutoff guard is the plain
arithmetic crossing test: the current tick has reached the threshold and
the previous tick had not. -/
theorem delayFire_char (thr t t0 p : Nat) (s : Controller)
    (hlt : s.laser_on_time = t0) (hllt : s.last_loop_time = p)
    (ht0 : t0 ≤ p) (hpt : p < t) (hb : t < 2 ^ 31) :
    delayFire thr (t % U32) s =
      (decide (t0 + thr ≤ t) && decide (p < t0 + thr)) := by
  have hU : (2 : Nat) ^ 31 < U32 := by decide
  have htm : t % U32 = t := Nat.mod_eq_of_lt (by omega)
  have hsub : u32sub t t0 = t - t0 := u32sub_of_le (by omega) (by omega)
  have hsub2 : u32sub p t0 = p - t0 := u32sub_of_le ht0 (by omega)
  have hto : toI32 (p - t0) = ((p - t0 : Nat) : Int) :=
    toI32_of_lt (by unfold I32MIN_PAT; omega)
  unfold delayFire i32sub
  rw [hlt, hllt, htm, hsub, hsub2, hto]
  congr 1
  · exact decide_eq_decide.mpr (by omega)
  · exact decide_eq_decide.mpr (by omega)

theorem detect_llt (e : Env) (now : Nat) (s : Controller) :
    (detectPhase e now s).last_loop_time = s.last_loop_time := by
  simp only [detectPhase]; split <;> split <;> rfl

theorem detect_laser_on (e : Env) (now : Nat) (s : Controller)
    (hl : s.laser = true) (hpw : ¬ e.pwm = 0) :
    (detectPhase e now s).laser_on_time = now := by
  simp only [detectPhase]
  have hcond : (s.laser && decide (e.pwm ≠ 0)) = true := by
    rw [hl]; simp [hpw]
  rw [if_pos hcond]
  split <;> rfl

/-- A quiescent laser-mode tick (no serial byte, pwm sense zero) keeps
the mode and `laser_on_time` and moves `last_loop_time` to the tick
time. -/
theorem quiescent_tick (t : Nat) (s : Controller)
    (hm : s.mode = MachineMode.MODE_LASER) :
    (tick (laserIdleEnv t) s).1.mode = MachineMode.MODE_LASER ∧
    (tick (laserIdleEnv t) s).1.laser_on_time = s.laser_on_time ∧
    (tick (laserIdleEnv t) s).1.last_loop_time = t % U32 := by
  have hsp : (serialPhase (laserIdleEnv t) s).1 = s := by
    rw [serialPhase_none _ _ rfl]
  have hd : detectPhase (laserIdleEnv t) ((laserIdleEnv t).now % U32) s = s :=
    detect_pwm0 _ _ _ rfl
  refine ⟨?_, ?_, rfl⟩
  · rw [tick_mode, enforce_mode, hsp, hm]
  · have h1 : (tick (laserIdleEnv t) s).1.laser_on_time =
        (enforceSafety (laserIdleEnv t) ((laserIdleEnv t).now % U32)
          (serialPhase (laserIdleEnv t) s).1).laser_on_time := rfl
    rw [h1, hsp]
    simp only [enforceSafety]
    rw [(lmb_times _ _ _ _).1, (flo_frame _).2.2.2.2.1,
      (fso_frame _).2.2.2.2.1, hd]

/-- Once the elapsed time since `laser_on_time` has already passed the
threshold, the shutoff guard never fires again along a quiescent run. -/
theorem fireTrace_never (thr t0 : Nat) (ts : List Nat) :
    ∀ (s : Controller) (p : Nat),
      s.mode = MachineMode.MODE_LASER →
      s.laser_on_time = t0 →
      s.last_loop_time = p →
      t0 ≤ p → p < 2 ^ 31 → t0 + thr ≤ p →
      chainInc p ts → (∀ t ∈ ts, t < 2 ^ 31) →
      fireTrace thr s ts = ts.map (fun _ => false) := by
  induction ts with
  | nil => intro s p _ _ _ _ _ _ _ _; rfl
  | cons t ts ih =>
    intro s p hm hlt hllt ht0 hp31 hge hc hbd
    obtain ⟨hpt, hc2⟩ := hc
    have hb : t < 2 ^ 31 := hbd t (List.mem_cons_self _ _)
    have htm : t % U32 = t := Nat.mod_eq_of_lt (by unfold U32; omega)
    obtain ⟨hm2, hlt2, hllt2⟩ := quiescent_tick t s hm
    simp only [fireTrace, List.map, List.cons.injEq]
    constructor
    · rw [delayFire_char thr t t0 p s hlt hllt ht0 hpt hb]
      simp only [Bool.and_eq_false_iff]
      right
      simp only [decide_eq_false_iff_not, not_lt]
      omega
    · exact ih (tick (laserIdleEnv t) s).1 t hm2 (by rw [hlt2, hlt])
        (by rw [hllt2, htm]) (by omega) hb (by omega) hc2
        (fun x hx => hbd x (List.mem_cons_of_mem _ hx))

/-- Along a strictly increasing quiescent laser-mode run started before
the threshold is reached, the shutoff guard fires exactly at the first
tick whose time reaches `laser_on_time + thr`, and never after. -/
theorem fireTrace_first (thr t0 : Nat) (ts : List Nat) :
    ∀ (s : Controller) (p : Nat),
      s.mode = MachineMode.MODE_LASER →
      s.laser_on_time = t0 →
      s.last_loop_time = p →
      t0 ≤ p → p < 2 ^ 31 → p < t0 + thr →
      chainInc p ts → (∀ t ∈ ts, t < 2 ^ 31) →
      fireTrace thr s ts = firstCross (t0 + thr) ts := by
  induction ts with
  | nil => intro s p _ _ _ _ _ _ _ _; rfl
  | cons t ts ih =>
    intro s p hm hlt hllt ht0 hp31 hlt2 hc hbd
    obtain ⟨hpt, hc2⟩ := hc
    have hb : t < 2 ^ 31 := hbd t (List.mem_cons_self _ _)
    have htm : t % U32 = t := Nat.mod_eq_of_lt (by unfold U32; omega)
    obtain ⟨hm2, hlon2, hllt3⟩ := quiescent_tick t s hm
    simp only [fireTrace, firstCross, List.map]
    by_cases hcr : t0 + thr ≤ t
    · rw [if_pos hcr]
      simp only [List.cons.injEq]
      constructor
      · rw [delayFire_char thr t t0 p s hlt hllt ht0 hpt hb]
        simp [hcr, hlt2]
      · exact fireTrace_never thr t0 ts (tick (laserIdleEnv t) s).1 t hm2
          (by rw [hlon2, hlt]) (by rw [hllt3, htm]) (by omega) hb hcr hc2
          (fun x hx => hbd x (List.mem_cons_of_mem _ hx))
    · rw [if_neg hcr]
      simp only [List.cons.injEq]
      constructor
      · rw [delayFire_char thr t t0 p s hlt hllt ht0 hpt hb]
        simp [hcr]
      · exact ih (tick (laserIdleEnv t) s).1 t hm2 (by rw [hlon2, hlt])
          (by rw [hllt3, htm]) (by omega) hb (by omega) hc2
          (fun x hx => hbd x (List.mem_cons_of_mem _ hx))

theorem delayedOff_congr (thr now : Nat) (a b : Controller)
    (h1 : a.laser_on_time = b.laser_on_time)
    (h2 : a.last_loop_time = b.last_loop_time) :
    delayedOff thr now a ↔ delayedOff thr now b := by
  unfold delayedOff; rw [h1, h2]

theorem delayFire_decide (thr now : Nat) (s : Controller) :
    delayFire thr now s = decide (delayedOff thr now s) := by
  unfold delayFire delayedOff
  rw [Bool.decide_and]

theorem airHoodOn_false (s : Controller) : airHoodOn false s = s := rfl

theorem airShutoff_air (now : Nat) (s : Controller) :
    (airShutoff now s).air =
      if delayedOff LASER_OFF_TO_AIR_OFF_MS now s then false else s.air := by
  simp only [airShutoff]
  split <;> rfl

theorem hoodShutoff_hood (now : Nat) (s : Controller) :
    (hoodShutoff now s).hood =
      if delayedOff LASER_OFF_TO_HOOD_OFF_MS now s then false else s.hood := by
  simp only [hoodShutoff]
  split <;> rfl

/-- In a quiescent laser-mode tick, the enforcement loop writes the air
output LOW exactly when the pre-tick shutoff guard `delayFire` is true
and leaves it alone otherwise; likewise the hood output with its own
threshold.  This ties the guard traces below to the physical outputs. -/
theorem quiescent_tick_air_hood (t : Nat) (s : Controller)
    (hm : s.mode = MachineMode.MODE_LASER) :
    (tick (laserIdleEnv t) s).1.air =
      (if delayFire LASER_OFF_TO_AIR_OFF_MS (t % U32) s = true then false
       else s.air) ∧
    (tick (laserIdleEnv t) s).1.hood =
      (if delayFire LASER_OFF_TO_HOOD_OFF_MS (t % U32) s = true then false
       else s.hood) := by
  have hsp : (serialPhase (laserIdleEnv t) s).1 = s := by
    rw [serialPhase_none _ _ rfl]
  have hd : detectPhase (laserIdleEnv t) ((laserIdleEnv t).now % U32) s = s :=
    detect_pwm0 _ _ _ rfl
  have hli : (s.laser && decide ((laserIdleEnv t : Env).pwm ≠ 0)) = false := by
    simp [laserIdleEnv]
  have hs3 : forceLaserOff (forceSpindleOff
      (detectPhase (laserIdleEnv t) ((laserIdleEnv t).now % U32) s)) =
      forceLaserOff (forceSpindleOff s) := by rw [hd]
  have hs3m : (forceLaserOff (forceSpindleOff s)).mode =
      MachineMode.MODE_LASER := by
    rw [(flo_frame _).1, (fso_frame _).1, hm]
  have hdoor1 : (doorInterlock (laserIdleEnv t)
      (forceLaserOff (forceSpindleOff s))).laser_on_time =
      s.laser_on_time := by
    rw [(door_frame _ _).2.2.2.2.1, (flo_frame _).2.2.2.2.1,
      (fso_frame _).2.2.2.2.1]
  have hdoor2 : (doorInterlock (laserIdleEnv t)
      (forceLaserOff (forceSpindleOff s))).last_loop_time =
      s.last_loop_time := by
    rw [(door_frame _ _).2.2.2.2.2, (flo_frame _).2.2.2.2.2,
      (fso_frame _).2.2.2.2.2]
  have hdoorair : (doorInterlock (laserIdleEnv t)
      (forceLaserOff (forceSpindleOff s))).air = s.air := by
    rw [(door_frame _ _).2.2.1, (flo_frame _).2.2.1, (fso_frame _).2.2.1]
  have hdoorhood : (doorInterlock (laserIdleEnv t)
      (forceLaserOff (forceSpindleOff s))).hood = s.hood := by
    rw [(door_frame _ _).2.2.2.1, (flo_frame _).2.2.2.1,
      (fso_frame _).2.2.2.1]
  have hnw : (laserIdleEnv t : Env).now % U32 = t % U32 := rfl
  constructor
  · rw [tick_air, hsp]
    simp only [enforceSafety]
    rw [hli, hs3]
    simp only [laserModeBlock]
    rw [if_pos hs3m, airHoodOn_false, (hoodShutoff_frame _ _).2.2.2.1,
      airShutoff_air,
      if_congr (delayedOff_congr _ _ _ _ hdoor1 hdoor2) rfl rfl, hdoorair,
      hnw]
    simp only [delayFire_decide, decide_eq_true_eq]
  · rw [tick_hood, hsp]
    simp only [enforceSafety]
    rw [hli, hs3]
    simp only [laserModeBlock]
    rw [if_pos hs3m, airHoodOn_false, hoodShutoff_hood]
    have hx1 : (airShutoff ((laserIdleEnv t : Env).now % U32)
        (doorInterlock (laserIdleEnv t)
          (forceLaserOff (forceSpindleOff s)))).laser_on_time =
        s.laser_on_time := by
      rw [(airShutoff_frame _ _).2.2.2.2.1, hdoor1]
    have hx2 : (airShutoff ((laserIdleEnv t : Env).now % U32)
        (doorInterlock (laserIdleEnv t)
          (forceLaserOff (forceSpindleOff s)))).last_loop_time =
        s.last_loop_time := by
      rw [(airShutoff_frame _ _).2.2.2.2.2, hdoor2]
    rw [if_congr (delayedOff_congr _ _ _ _ hx1 hx2) rfl rfl,
      (airShutoff_frame _ _).2.2.2.1, hdoorhood, hnw]
    simp only [delayFire_decide, decide_eq_true_eq]

/-- The laser-mode block with the activity flag set forces air and hood
HIGH, and neither shutoff un-does it when its guard does not hold. -/
theorem lmb_active (e : Env) (now : Nat) (s : Controller)
    (hm : s.mode = MachineMode.MODE_LASER)
    (hA : ¬ delayedOff LASER_OFF_TO_AIR_OFF_MS now s)
    (hH : ¬ delayedOff LASER_OFF_TO_HOOD_OFF_MS now s) :
    (laserModeBlock e true now s).air = true ∧
    (laserModeBlock e true now s).hood = true := by
  simp only [laserModeBlock]
  rw [if_pos hm]
  have hb1 : (airHoodOn true (doorInterlock e s)).laser_on_time =
      s.laser_on_time := by
    rw [(airHoodOn_frame _ _).2.2.2.1, (door_frame _ _).2.2.2.2.1]
  have hb2 : (airHoodOn true (doorInterlock e s)).last_loop_time =
      s.last_loop_time := by
    rw [(airHoodOn_frame _ _).2.2.2.2, (door_frame _ _).2.2.2.2.2]
  have hA2 : ¬ delayedOff LASER_OFF_TO_AIR_OFF_MS now
      (airHoodOn true (doorInterlock e s)) :=
    fun hx => hA ((delayedOff_congr _ _ _ _ hb1 hb2).mp hx)
  have hH2 : ¬ delayedOff LASER_OFF_TO_HOOD_OFF_MS now
      (airHoodOn true (doorInterlock e s)) :=
    fun hx => hH ((delayedOff_congr _ _ _ _ hb1 hb2).mp hx)
  rw [airShutoff_no_fire _ _ hA2, hoodShutoff_no_fire _ _ hH2]
  exact airHoodOn_true (doorInterlock e s)

/-- The activation tick: in laser mode with the laser output HIGH and a
nonzero pwm sense at time `t0`, one quiescent-input tick records
`laser_on_time = t0`, moves `last_loop_time` to `t0`, and forces the air
and hood outputs HIGH; the mode stays Laser. -/
theorem activation_tick (s0 : Controller) (t0 pw : Nat)
    (hm : s0.mode = MachineMode.MODE_LASER)
    (hl : s0.laser = true)
    (hpw : ¬ pw = 0)
    (hb : t0 < 2 ^ 31) :
    (tick { laserIdleEnv t0 with pwm := pw } s0).1.mode =
      MachineMode.MODE_LASER ∧
    (tick { laserIdleEnv t0 with pwm := pw } s0).1.laser_on_time = t0 ∧
    (tick { laserIdleEnv t0 with pwm := pw } s0).1.last_loop_time = t0 ∧
    (tick { laserIdleEnv t0 with pwm := pw } s0).1.air = true ∧
    (tick { laserIdleEnv t0 with pwm := pw } s0).1.hood = true := by
  have htm : t0 % U32 = t0 := Nat.mod_eq_of_lt (by unfold U32; omega)
  have hsp : (serialPhase { laserIdleEnv t0 with pwm := pw } s0).1 = s0 := by
    rw [serialPhase_none _ _ rfl]
  have hli : (s0.laser &&
      decide (({ laserIdleEnv t0 with pwm := pw } : Env).pwm ≠ 0)) = true := by
    rw [hl]; simp [hpw]
  have hdlon : (detectPhase { laserIdleEnv t0 with pwm := pw } (t0 % U32)
      s0).laser_on_time = t0 % U32 :=
    detect_laser_on _ _ _ hl hpw
  have hs3lon : (forceLaserOff (forceSpindleOff
      (detectPhase { laserIdleEnv t0 with pwm := pw } (t0 % U32)
        s0))).laser_on_time = t0 % U32 := by
    rw [(flo_frame _).2.2.2.2.1, (fso_frame _).2.2.2.2.1, hdlon]
  have hs3m : (forceLaserOff (forceSpindleOff
      (detectPhase { laserIdleEnv t0 with pwm := pw } (t0 % U32)
        s0))).mode = MachineMode.MODE_LASER := by
    rw [(flo_frame _).1, (fso_frame _).1, detect_mode, hm]
  have hA : ¬ delayedOff LASER_OFF_TO_AIR_OFF_MS (t0 % U32)
      (forceLaserOff (forceSpindleOff
        (detectPhase { laserIdleEnv t0 with pwm := pw } (t0 % U32) s0))) := by
    intro hx
    obtain ⟨h1, _⟩ := hx
    rw [hs3lon, u32sub_self] at h1
    exact absurd h1 (by decide)
  have hH : ¬ delayedOff LASER_OFF_TO_HOOD_OFF_MS (t0 % U32)
      (forceLaserOff (forceSpindleOff
        (detectPhase { laserIdleEnv t0 with pwm := pw } (t0 % U32) s0))) := by
    intro hx
    obtain ⟨h1, _⟩ := hx
    rw [hs3lon, u32sub_self] at h1
    exact absurd h1 (by decide)
  have henv : ({ laserIdleEnv t0 with pwm := pw } : Env).now % U32 =
      t0 % U32 := rfl
  refine ⟨?_, ?_, ?_, ?_, ?_⟩
  · rw [tick_mode, enforce_mode, hsp, hm]
  · have h1 : (tick { laserIdleEnv t0 with pwm := pw } s0).1.laser_on_time =
        (enforceSafety { laserIdleEnv t0 with pwm := pw }
          (({ laserIdleEnv t0 with pwm := pw } : Env).now % U32)
          (serialPhase { laserIdleEnv t0 with pwm := pw } s0).1).laser_on_time
        := rfl
    rw [h1, hsp, henv]
    simp only [enforceSafety]
    rw [(lmb_times _ _ _ _).1, hs3lon, htm]
  · have h1 : (tick { laserIdleEnv t0 with pwm := pw } s0).1.last_loop_time =
        ({ laserIdleEnv t0 with pwm := pw } : Env).now % U32 := rfl
    rw [h1, henv, htm]
  · have h1 : (tick { laserIdleEnv t0 with pwm := pw } s0).1.air =
        (enforceSafety { laserIdleEnv t0 with pwm := pw }
          (({ laserIdleEnv t0 with pwm := pw } : Env).now % U32)
          (serialPhase { laserIdleEnv t0 with pwm := pw } s0).1).air := rfl
    rw [h1, hsp, henv]
    simp only [enforceSafety]
    rw [hli]
    exact (lmb_active _ _ _ hs3m hA hH).1
  · have h1 : (tick { laserIdleEnv t0 with pwm := pw } s0).1.hood =
        (enforceSafety { laserIdleEnv t0 with pwm := pw }
          (({ laserIdleEnv t0 with pwm := pw } : Env).now % U32)
          (serialPhase { laserIdleEnv t0 with pwm := pw } s0).1).hood := rfl
    rw [h1, hsp, henv]
    simp only [enforceSafety]
    rw [hli]
    exact (lmb_active _ _ _ hs3m hA hH).2

/-- C5: in laser mode with the door closed and the laser output HIGH, a
tick at time `t0` with nonzero pwm sense (laser activity) records
`laser_on_time = t0` and forces air and hood HIGH; along any strictly
increasing run of later quiescent ticks (pwm sense zero), the air
shutoff guard — the exact condition under which the enforcement loop
writes the air output LOW — is true exactly at the first tick whose
time reaches `t0 + LASER_OFF_TO_AIR_OFF_MS` and false at every other
tick, and the hood shutoff guard likewise at its own larger threshold
`t0 + LASER_OFF_TO_HOOD_OFF_MS`; neither fires again without a new
activation. -/
theorem delayed_shutoff_exactly_once (s0 : Controller) (t0 pw : Nat)
    (ts : List Nat)
    (hm : s0.mode = MachineMode.MODE_LASER)
    (hl : s0.laser = true)
    (hpw : ¬ pw = 0)
    (hb : t0 < 2 ^ 31)
    (hchain : chainInc t0 ts)
    (hbound : ∀ t ∈ ts, t < 2 ^ 31) :
    (tick { laserIdleEnv t0 with pwm := pw } s0).1.air = true ∧
    (tick { laserIdleEnv t0 with pwm := pw } s0).1.hood = true ∧
    (tick { laserIdleEnv t0 with pwm := pw } s0).1.laser_on_time = t0 ∧
    fireTrace LASER_OFF_TO_AIR_OFF_MS
        (tick { laserIdleEnv t0 with pwm := pw } s0).1 ts =
      firstCross (t0 + LASER_OFF_TO_AIR_OFF_MS) ts ∧
    fireTrace LASER_OFF_TO_HOOD_OFF_MS
        (tick { laserIdleEnv t0 with pwm := pw } s0).1 ts =
      firstCross (t0 + LASER_OFF_TO_HOOD_OFF_MS) ts ∧
    (∀ (t : Nat) (s2 : Controller), s2.mode = MachineMode.MODE_LASER →
      (tick (laserIdleEnv t) s2).1.air =
        (if delayFire LASER_OFF_TO_AIR_OFF_MS (t % U32) s2 = true then false
         else s2.air) ∧
      (tick (laserIdleEnv t) s2).1.hood =
        (if delayFire LASER_OFF_TO_HOOD_OFF_MS (t % U32) s2 = true then false
         else s2.hood)) := by
  obtain ⟨hm1, hlon1, hllt1, hair1, hhood1⟩ :=
    activation_tick s0 t0 pw hm hl hpw hb
  refine ⟨hair1, hhood1, hlon1, ?_, ?_, quiescent_tick_air_hood⟩
  · exact fireTrace_first _ t0 ts _ t0 hm1 hlon1 hllt1 le_rfl (by omega)
      (by unfold LASER_OFF_TO_AIR_OFF_MS; omega) hchain hbound
  · exact fireTrace_first _ t0 ts _ t0 hm1 hlon1 hllt1 le_rfl (by omega)
      (by unfold LASER_OFF_TO_HOOD_OFF_MS; omega) hchain hbound

/-- Witness for C5 at concrete inputs: activation at `t0 = 1000`, run
ticks at 2000, 5900, 6000, 7000; the air guard fires exactly at the
first tick past `1000 + 5000`, the hood guard (threshold 240000) never
fires in this window. -/
theorem delayed_shutoff_exactly_once_witness :
    (tick { laserIdleEnv 1000 with pwm := 800 } laserWitState).1.air
      = true ∧
    fireTrace LASER_OFF_TO_AIR_OFF_MS
        (tick { laserIdleEnv 1000 with pwm := 800 } laserWitState).1
        [2000, 5900, 6000, 7000] =
      firstCross (1000 + LASER_OFF_TO_AIR_OFF_MS) [2000, 5900, 6000, 7000] ∧
    firstCross (1000 + LASER_OFF_TO_AIR_OFF_MS) [2000, 5900, 6000, 7000] =
      [false, false, true, false] ∧
    fireTrace LASER_OFF_TO_HOOD_OFF_MS
        (tick { laserIdleEnv 1000 with pwm := 800 } laserWitState).1
        [2000, 5900, 6000, 7000] =
      firstCross (1000 + LASER_OFF_TO_HOOD_OFF_MS) [2000, 5900, 6000, 7000] ∧
    firstCross (1000 + LASER_OFF_TO_HOOD_OFF_MS) [2000, 5900, 6000, 7000] =
      [false, false, false, false] := by
  have h := delayed_shutoff_exactly_once laserWitState 1000 800
    [2000, 5900, 6000, 7000] rfl rfl (by decide) (by decide) (by decide)
    (by decide)
  exact ⟨h.1, h.2.2.2.1, by decide, h.2.2.2.2.1, by decide⟩

end Cnc
